import Mathlib

/-!
Shallow embedding of scanner_github.py (Cryptoscan-2): a crypto intraday
scanner that fetches ranked market snapshots, filters by market cap rank,
evaluates a 2-of-3 signal rule (1h move, 24h move, volume vs median) and
emails a report of candidates.

Numeric cells of the pandas DataFrame are modelled by PFloat: either NaN
(the pandas missing-value marker for numeric columns) or an exact rational.
Python semantics that matter here and are modelled explicitly:
  - comparisons against NaN are false;
  - NaN is truthy, so the idiom float(x or 0) keeps NaN and only turns
    falsy values (None, 0.0) into 0;
  - int(NaN) raises ValueError; calling upper() on a NaN cell raises
    AttributeError.
Effects (requests, ccxt, smtplib) are modelled by explicit inputs: the
fetch outcome, the ccxt exchange construction outcome, and the SMTP
transaction outcome, each an Except value supplied to the run.
-/

namespace Cryptoscan

/-- A numeric cell: NaN or a rational value. -/
inductive PFloat where
  | nan : PFloat
  | num : ℚ → PFloat
deriving DecidableEq, Repr

namespace PFloat

/-- pandas isna on a numeric cell. -/
def isna : PFloat → Bool
  | nan => true
  | num _ => false

/-- Python truthiness of a float value: NaN is truthy, 0.0 is falsy. -/
def truthy : PFloat → Bool
  | nan => true
  | num q => decide (q ≠ 0)

/-- Models the Python idiom float(x or 0): falsy values become 0, NaN stays NaN. -/
def orZero (v : PFloat) : PFloat := if v.truthy then v else num 0

/-- Python comparison v >= t against a real threshold: false when v is NaN. -/
def geQ : PFloat → ℚ → Bool
  | nan, _ => false
  | num q, t => decide (t ≤ q)

/-- pandas Series.between with both bounds inclusive; false on NaN. -/
def between : PFloat → ℚ → ℚ → Bool
  | nan, _, _ => false
  | num q, lo, hi => decide (lo ≤ q) && decide (q ≤ hi)

end PFloat

/-- A string cell of an object column: NaN (on which upper() raises) or a string. -/
inductive PStr where
  | nanv : PStr
  | str : String → PStr
deriving DecidableEq, Repr

/-- Python exception kinds relevant to the scanner. -/
inductive PyErr where
  | attrError : PyErr
  | valueError : PyErr
  | netError : PyErr
  | other : String → PyErr
deriving DecidableEq, Repr

instance {ε α : Type} [DecidableEq ε] [DecidableEq α] : DecidableEq (Except ε α) := fun a b =>
  match a, b with
  | Except.ok x, Except.ok y =>
    if h : x = y then isTrue (congrArg Except.ok h)
    else isFalse (fun hh => h (Except.ok.inj hh))
  | Except.ok _, Except.error _ => isFalse (fun hh => Except.noConfusion hh)
  | Except.error _, Except.ok _ => isFalse (fun hh => Except.noConfusion hh)
  | Except.error e, Except.error e2 =>
    if h : e = e2 then isTrue (congrArg Except.error h)
    else isFalse (fun hh => h (Except.error.inj hh))

/-- Python int() applied to a float: truncation toward zero; ValueError on NaN. -/
def pyIntOfFloat : PFloat → Except PyErr Int
  | PFloat.nan => Except.error PyErr.valueError
  | PFloat.num q => Except.ok (if 0 ≤ q then ⌊q⌋ else ⌈q⌉)

/-- One raw CoinGecko market record, as a row of the DataFrame. Field values
are only meaningful when the corresponding column exists (see Cols). -/
structure RawRec where
  id : String
  name : String
  symbol : PStr
  market_cap_rank : PFloat
  current_price : PFloat
  total_volume : PFloat
  pc1hInCur : PFloat
  pc24hInCur : PFloat
  pc24hPct : PFloat
  pc24hShort : PFloat
deriving DecidableEq, Repr

/-- Which optional columns the DataFrame has. pandas creates a column iff some
record carries the key; rows missing the key hold NaN there, which is how
absent per-record values are modelled. pc1hInCur stands for the column
price_change_percentage_1h_in_currency, pc24hInCur for
price_change_percentage_24h_in_currency, pc24hPct for
price_change_percentage_24h and pc24hShort for price_change_24h. -/
structure Cols where
  hasRank : Bool
  hasPc1hInCur : Bool
  hasPc24hInCur : Bool
  hasPc24hPct : Bool
  hasPc24hShort : Bool
  hasTotalVolume : Bool
deriving DecidableEq, Repr

/-- The fetched frame: records plus column presence. -/
structure Frame where
  records : List RawRec
  cols : Cols
deriving DecidableEq, Repr

/-- Result of resp.json() on a successful fetch: either not a list
(malformed) or a list of records giving a frame. -/
inductive Markets where
  | notList : Markets
  | ofFrame : Frame → Markets
deriving DecidableEq, Repr

/-- Scanner configuration (environment variables and module constants). -/
structure Config where
  RANK_MIN : Int
  RANK_MAX : Int
  MIN_1H_PCT : ℚ
  MIN_24H_PCT : ℚ
  VOLUME_MULTIPLIER : ℚ
  CCXT_AVAILABLE : Bool
  SMTP_USER : String
  SMTP_PASSWORD : String
  EMAIL_RECIPIENT : String
deriving DecidableEq, Repr

/-- Derived column price_change_1h, lines 157-160 of scanner_github.py:
first sel.get of the 1h-in-currency column with the plain 24h-percentage
column (or scalar NaN) as fallback; then overwritten with NaN when the
24h-in-currency column exists but the 1h-in-currency column does not. -/
def pc1hCol (c : Cols) (r : RawRec) : PFloat :=
  if c.hasPc24hInCur && !c.hasPc1hInCur then PFloat.nan
  else if c.hasPc1hInCur then r.pc1hInCur
  else if c.hasPc24hPct then r.pc24hPct
  else PFloat.nan

/-- Derived column price_change_24h, line 162: the 24h-in-currency column,
falling back to a pre-existing price_change_24h column, else scalar NaN. -/
def pc24hCol (c : Cols) (r : RawRec) : PFloat :=
  if c.hasPc24hInCur then r.pc24hInCur
  else if c.hasPc24hShort then r.pc24hShort
  else PFloat.nan

/-- Derived column total_volume, line 165: the column itself, or scalar 0
broadcast when the column is absent. -/
def volumeCol (c : Cols) (r : RawRec) : PFloat :=
  if c.hasTotalVolume then r.total_volume else PFloat.num 0

/-- The non-NaN volume values of a record list, in order. -/
def presentVols (c : Cols) (rs : List RawRec) : List ℚ :=
  rs.filterMap (fun r =>
    match volumeCol c r with
    | PFloat.nan => none
    | PFloat.num q => some q)

/-- pandas Series.median with skipna: sort the non-NaN values ascending and
take the middle element, or the mean of the two middle elements for an even
count. Only called on a nonempty value list by median_vol. -/
def pandasMedian (l : List ℚ) : ℚ :=
  let s := List.insertionSort (· ≤ ·) l
  if l.length % 2 = 1 then s.getD (l.length / 2) 0
  else (s.getD (l.length / 2 - 1) 0 + s.getD (l.length / 2) 0) / 2

/-- Line 166: median of the total_volume column of the filtered frame,
or 0 when every value is NaN. -/
def median_vol (c : Cols) (rs : List RawRec) : ℚ :=
  if presentVols c rs = [] then 0 else pandasMedian (presentVols c rs)

/-- Whether a record passes the rank window filter of line 149:
between is inclusive on both ends and false on NaN. -/
def rankOk (cfg : Config) (r : RawRec) : Bool :=
  r.market_cap_rank.between (cfg.RANK_MIN : ℚ) (cfg.RANK_MAX : ℚ)

/-- Lines 148-150: the rank-window filter. -/
def rankFilter (cfg : Config) (recs : List RawRec) : List RawRec :=
  recs.filter (rankOk cfg)

/-- A funding-rate object returned by ccxt; the scanner only reads its
symbol field (in the fetchFundingRates branch) and otherwise passes the
object through as an annotation. -/
structure Funding where
  symbol : String
deriving DecidableEq, Repr

/-- A ccxt exchange object: each funding method may be absent (hasattr
false) and, when present, may raise or return a possibly-None result. -/
structure Exchange where
  fetch_funding_rate : Option (String → Except PyErr (Option Funding))
  fetchFundingRate : Option (String → Except PyErr (Option Funding))
  fetchFundingRates : Option (String → Except PyErr (List Funding))

/-- Lines 77-99: try_fetch_funding_rate. Returns none when ccxt is missing,
when exchange construction or the chosen method raises, when no method
exists, or when no listed rate matches the symbol. Never raises. -/
def try_fetch_funding_rate (available : Bool) (mkExchange : Except PyErr Exchange)
    (symbol : String) : Option Funding :=
  if !available then none
  else
    match mkExchange with
    | Except.error _ => none
    | Except.ok ex =>
      match ex.fetch_funding_rate with
      | some f =>
        match f symbol with
        | Except.ok v => v
        | Except.error _ => none
      | none =>
        match ex.fetchFundingRate with
        | some f =>
          match f symbol with
          | Except.ok v => v
          | Except.error _ => none
        | none =>
          match ex.fetchFundingRates with
          | some f =>
            match f symbol with
            | Except.ok rates => rates.find? (fun fr => fr.symbol == symbol)
            | Except.error _ => none
          | none => none

/-- A satisfied signal condition, carrying the values the reason string of
lines 185-189 interpolates. -/
inductive Reason where
  | r1h : PFloat → ℚ → Reason
  | r24h : PFloat → ℚ → Reason
  | rvol : PFloat → ℚ → Reason
deriving DecidableEq, Repr

/-- Line 184: the 1h condition change_1h >= MIN_1H_PCT, where change_1h is
float(row.get of price_change_1h or 0). -/
def cond1 (cfg : Config) (c : Cols) (r : RawRec) : Bool :=
  ((pc1hCol c r).orZero).geQ cfg.MIN_1H_PCT

/-- Line 186: the 24h condition change_24h >= MIN_24H_PCT. -/
def cond2 (cfg : Config) (c : Cols) (r : RawRec) : Bool :=
  ((pc24hCol c r).orZero).geQ cfg.MIN_24H_PCT

/-- Line 188: the volume condition median_vol > 0 and
vol >= median_vol * VOLUME_MULTIPLIER. -/
def cond3 (cfg : Config) (medv : ℚ) (c : Cols) (r : RawRec) : Bool :=
  decide (0 < medv) && ((volumeCol c r).orZero).geQ (medv * cfg.VOLUME_MULTIPLIER)

/-- Lines 198-200: the ordered funding symbol guesses; none when ccxt is
unavailable (the whole block is skipped) or the symbol is empty (falsy). -/
def guessesOf (available : Bool) (symbol : String) : List String :=
  if available then
    if symbol ≠ "" then [symbol ++ "/USDT", symbol ++ "/USD", symbol ++ "/USDT:USDT"]
    else []
  else []

/-- Lines 202-206: try each symbol guess in order, keep the first truthy
result and break; returns the symbols actually tried and the result. -/
def fundingLoop (lookup : String → Option Funding) : List String → List String × Option Funding
  | [] => ([], none)
  | s :: rest =>
    match lookup s with
    | some fr => ([s], some fr)
    | none =>
      let t := fundingLoop lookup rest
      (s :: t.1, t.2)

/-- The outcome of processing one row of the filtered frame without fault,
lines 172-214: normalized fields, reasons, the 2-of-3 signal, and the
funding lookup attempts and result. -/
structure RowOut where
  id : String
  name : String
  symbol : String
  rank : Int
  price : PFloat
  vol : PFloat
  change_1h : PFloat
  change_24h : PFloat
  reasons : List Reason
  signal : Bool
  attempts : List String
  funding : Option Funding
deriving DecidableEq, Repr

/-- Python str.upper on one character, restricted to ASCII as ticker
symbols are. -/
def upperChar (c : Char) : Char :=
  if 97 ≤ c.toNat ∧ c.toNat ≤ 122 then Char.ofNat (c.toNat - 32) else c

/-- Python str.upper, line 173. -/
def upperStr (s : String) : String := String.mk (s.data.map upperChar)

/-- The fault-free part of a row evaluation, reached once symbol and rank
extraction succeed. -/
def mkRow (cfg : Config) (bin : Except PyErr Exchange) (c : Cols) (medv : ℚ)
    (r : RawRec) (s : String) (rank : Int) : RowOut :=
  let symbol := upperStr s
  let vol := (volumeCol c r).orZero
  let change_1h := (pc1hCol c r).orZero
  let change_24h := (pc24hCol c r).orZero
  let reasons : List Reason :=
    (if cond1 cfg c r then [Reason.r1h change_1h cfg.MIN_1H_PCT] else []) ++
    ((if cond2 cfg c r then [Reason.r24h change_24h cfg.MIN_24H_PCT] else []) ++
     (if cond3 cfg medv c r then [Reason.rvol vol cfg.VOLUME_MULTIPLIER] else []))
  let fl := fundingLoop (fun g => try_fetch_funding_rate cfg.CCXT_AVAILABLE bin g)
    (guessesOf cfg.CCXT_AVAILABLE symbol)
  { id := r.id, name := r.name, symbol := symbol, rank := rank,
    price := r.current_price, vol := vol,
    change_1h := change_1h, change_24h := change_24h,
    reasons := reasons, signal := decide (2 ≤ reasons.length),
    attempts := fl.1, funding := fl.2 }

/-- One iteration of the candidate loop body, lines 172-214: symbol
extraction raises AttributeError on a NaN cell, int() on the rank raises
ValueError on NaN; otherwise the row evaluates to a RowOut. -/
def evalRow (cfg : Config) (bin : Except PyErr Exchange) (c : Cols) (medv : ℚ)
    (r : RawRec) : Except PyErr RowOut :=
  match r.symbol with
  | PStr.nanv => Except.error PyErr.attrError
  | PStr.str s =>
    match pyIntOfFloat r.market_cap_rank with
    | Except.error e => Except.error e
    | Except.ok rank => Except.ok (mkRow cfg bin c medv r s rank)

/-- Lines 169-217: the candidate loop. A fault in one row is caught, logged
and skipped (continue); a fault-free row is appended iff its signal holds. -/
def buildCandidates (cfg : Config) (bin : Except PyErr Exchange) (c : Cols) (medv : ℚ) :
    List RawRec → List RowOut
  | [] => []
  | r :: rest =>
    match evalRow cfg bin c medv r with
    | Except.error _ => buildCandidates cfg bin c medv rest
    | Except.ok out => (if out.signal then [out] else []) ++ buildCandidates cfg bin c medv rest

/-- Rank order on rendered rows. -/
def rankLe (a b : RowOut) : Prop := a.rank ≤ b.rank

instance : DecidableRel rankLe := fun a b => inferInstanceAs (Decidable (a.rank ≤ b.rank))

instance : IsTotal RowOut rankLe := ⟨fun a b => Int.le_total a.rank b.rank⟩

instance : IsTrans RowOut rankLe := ⟨fun _ _ _ h1 h2 => Int.le_trans h1 h2⟩

/-- Line 229: sorted(candidates, key rank). -/
def renderRows (cands : List RowOut) : List RowOut :=
  List.insertionSort rankLe cands

/-- Lines 225-252: rendering the HTML table iterates the rank-sorted
candidates; int() on a NaN volume (line 248) raises ValueError. -/
def renderReport (cands : List RowOut) : Except PyErr (List RowOut) :=
  if (renderRows cands).all (fun o => !o.vol.isna) then Except.ok (renderRows cands)
  else Except.error PyErr.valueError

/-- Lines 101-128: send_email returns (False, reason) when SMTP or the
recipient is unconfigured, otherwise the outcome of the SMTP transaction;
transport exceptions are caught inside and returned, never raised. -/
def send_email (cfg : Config) (smtp : Except String Unit) : Bool × String :=
  if cfg.SMTP_USER = "" || cfg.SMTP_PASSWORD = "" || cfg.EMAIL_RECIPIENT = "" then
    (false, "SMTP/recipient not configured")
  else
    match smtp with
    | Except.ok _ => (true, "ok")
    | Except.error e => (false, e)

/-- Observable outcome of the body of run_scan (inside the outer try). -/
structure BodyOut where
  evaluated : Bool
  medianUsed : Option ℚ
  candidates : List RowOut
  reportRows : List RowOut
  reportEmailAttempted : Bool
  reportEmailOutcome : Option (Bool × String)
  fault : Option PyErr
deriving DecidableEq, Repr

/-- The trace of a run that returned early without evaluating, faulting or
sending anything. -/
def quietOut : BodyOut :=
  { evaluated := false, medianUsed := none, candidates := [], reportRows := [],
    reportEmailAttempted := false, reportEmailOutcome := none, fault := none }

/-- Lines 155-259: everything after the rank filter: median, candidate
loop, report rendering and the report email. -/
def evalPhase (cfg : Config) (bin : Except PyErr Exchange) (smtp : Except String Unit)
    (c : Cols) (sel : List RawRec) : BodyOut :=
  if sel.isEmpty then quietOut
  else
    let medv := median_vol c sel
    let cands := buildCandidates cfg bin c medv sel
    if cands.isEmpty then
      { evaluated := true, medianUsed := some medv, candidates := cands, reportRows := [],
        reportEmailAttempted := false, reportEmailOutcome := none, fault := none }
    else
      match renderReport cands with
      | Except.error e =>
        { evaluated := true, medianUsed := some medv, candidates := cands, reportRows := [],
          reportEmailAttempted := false, reportEmailOutcome := none, fault := some e }
      | Except.ok rows =>
        { evaluated := true, medianUsed := some medv, candidates := cands, reportRows := rows,
          reportEmailAttempted := true, reportEmailOutcome := some (send_email cfg smtp),
          fault := none }

/-- Lines 134-259: the body of run_scan inside the outer try. A raised
fetch exception is the fault; a non-list or empty markets value, a frame
without the market_cap_rank column, and an empty rank window each log and
return quietly. -/
def scan_body (cfg : Config) (fetch : Except PyErr Markets) (bin : Except PyErr Exchange)
    (smtp : Except String Unit) : BodyOut :=
  match fetch with
  | Except.error e => { quietOut with fault := some e }
  | Except.ok Markets.notList => quietOut
  | Except.ok (Markets.ofFrame f) =>
    if f.records.isEmpty then quietOut
    else if !f.cols.hasRank then quietOut
    else evalPhase cfg bin smtp f.cols (rankFilter cfg f.records)

/-- The full observable trace of run_scan. -/
structure RunTrace where
  body : BodyOut
  crashEmailAttempted : Bool
  crashEmailFault : Option PyErr
  crashEmailOutcome : Option (Bool × String)
deriving DecidableEq, Repr

/-- Lines 133-267: run_scan. The outer except catches any fault of the
body, logs it and attempts a best-effort crash email whose body carries the
fault detail; that attempt is itself wrapped in try/except, and send_email
never raises, so run_scan always completes without raising. -/
def run_scan (cfg : Config) (fetch : Except PyErr Markets) (bin : Except PyErr Exchange)
    (smtp : Except String Unit) : RunTrace :=
  let b := scan_body cfg fetch bin smtp
  match b.fault with
  | none =>
    { body := b, crashEmailAttempted := false, crashEmailFault := none,
      crashEmailOutcome := none }
  | some e =>
    { body := b, crashEmailAttempted := true, crashEmailFault := some e,
      crashEmailOutcome := some (send_email cfg smtp) }

/-- Number of true conditions among three. -/
def condCount (a b c : Bool) : Nat := a.toNat + b.toNat + c.toNat

/-- Follows the words of the spec: the statistical median of a value list,
written independently of the implementation — sort the values ascending
with merge sort and take the middle element, or the mean of the two middle
elements when the count is even. -/
def medianSpec (l : List ℚ) : ℚ :=
  let s := List.mergeSort l (fun a b => decide (a ≤ b))
  if l.length % 2 = 1 then s.getD (l.length / 2) 0
  else (s.getD (l.length / 2 - 1) 0 + s.getD (l.length / 2) 0) / 2

/-- The funding-independent part of a row outcome. -/
structure RowCore where
  id : String
  name : String
  symbol : String
  rank : Int
  price : PFloat
  vol : PFloat
  change_1h : PFloat
  change_24h : PFloat
  reasons : List Reason
  signal : Bool
deriving DecidableEq, Repr

/-- Projection of a row outcome to its funding-independent part. -/
def coreOf (o : RowOut) : RowCore :=
  { id := o.id, name := o.name, symbol := o.symbol, rank := o.rank,
    price := o.price, vol := o.vol, change_1h := o.change_1h,
    change_24h := o.change_24h, reasons := o.reasons, signal := o.signal }

/-- Columns of a full CoinGecko response carrying both in-currency change
columns; the legacy price_change_24h column never appears there. -/
def colsAll : Cols :=
  { hasRank := true, hasPc1hInCur := true, hasPc24hInCur := true,
    hasPc24hPct := true, hasPc24hShort := false, hasTotalVolume := true }

/-- The default configuration values of the script, with no SMTP settings. -/
def defaultCfg : Config :=
  { RANK_MIN := 40, RANK_MAX := 100, MIN_1H_PCT := 2, MIN_24H_PCT := 3,
    VOLUME_MULTIPLIER := mkRat 7 5, CCXT_AVAILABLE := false,
    SMTP_USER := "", SMTP_PASSWORD := "", EMAIL_RECIPIENT := "" }

/-- An exchange construction outcome where ccxt raises. -/
def binNone : Except PyErr Exchange := Except.error PyErr.netError

/-- An SMTP transaction that would succeed if attempted. -/
def smtpOk : Except String Unit := Except.ok ()

/-- Example record of the spec: rank 55, 1h change 2.5, 24h change 1.0,
volume twice the median when the median is 1. -/
def recC1 : RawRec :=
  { id := "acoin", name := "ACoin", symbol := PStr.str "ac",
    market_cap_rank := PFloat.num 55, current_price := PFloat.num 1,
    total_volume := PFloat.num 2, pc1hInCur := PFloat.num (mkRat 5 2),
    pc24hInCur := PFloat.num 1, pc24hPct := PFloat.num 1, pc24hShort := PFloat.nan }

/-- A plain in-window record with no movement. -/
def recC5 : RawRec :=
  { id := "bcoin", name := "BCoin", symbol := PStr.str "bc",
    market_cap_rank := PFloat.num 50, current_price := PFloat.num 1,
    total_volume := PFloat.num 10, pc1hInCur := PFloat.num 0,
    pc24hInCur := PFloat.num 0, pc24hPct := PFloat.num 0, pc24hShort := PFloat.nan }

/-- A record outside the default rank window. -/
def recOut : RawRec :=
  { id := "topcoin", name := "TopCoin", symbol := PStr.str "tc",
    market_cap_rank := PFloat.num 5, current_price := PFloat.num 1,
    total_volume := PFloat.num 10, pc1hInCur := PFloat.num 0,
    pc24hInCur := PFloat.num 0, pc24hPct := PFloat.num 0, pc24hShort := PFloat.nan }

/-- A record whose own rank value is missing. -/
def recNan : RawRec :=
  { id := "nocoin", name := "NoCoin", symbol := PStr.str "nc",
    market_cap_rank := PFloat.nan, current_price := PFloat.num 1,
    total_volume := PFloat.num 10, pc1hInCur := PFloat.num 9,
    pc24hInCur := PFloat.num 9, pc24hPct := PFloat.num 9, pc24hShort := PFloat.nan }

/-- A record whose symbol cell is NaN, so that upper() raises for it. -/
def recBad : RawRec :=
  { id := "badcoin", name := "BadCoin", symbol := PStr.nanv,
    market_cap_rank := PFloat.num 60, current_price := PFloat.num 1,
    total_volume := PFloat.num 10, pc1hInCur := PFloat.num 9,
    pc24hInCur := PFloat.num 9, pc24hPct := PFloat.num 9, pc24hShort := PFloat.nan }

/-- Configuration with a non-positive 1h threshold. -/
def cfgC2 : Config := { defaultCfg with MIN_1H_PCT := -1 }

/-- A record whose per-record 1h change value is missing. -/
def recC2 : RawRec :=
  { id := "mcoin", name := "MCoin", symbol := PStr.str "mc",
    market_cap_rank := PFloat.num 42, current_price := PFloat.num 1,
    total_volume := PFloat.num 10, pc1hInCur := PFloat.nan,
    pc24hInCur := PFloat.num 0, pc24hPct := PFloat.num 0, pc24hShort := PFloat.nan }

/-- Configuration with the ccxt capability present. -/
def cfgC3 : Config := { defaultCfg with CCXT_AVAILABLE := true }

/-- An exchange whose unified funding method answers every symbol. -/
def binC3 : Except PyErr Exchange :=
  Except.ok { fetch_funding_rate := some (fun g => Except.ok (some { symbol := g })),
              fetchFundingRate := none, fetchFundingRates := none }

/-- An in-window record with no movement at all, hence not a candidate. -/
def recC3 : RawRec :=
  { id := "ccoin", name := "CCoin", symbol := PStr.str "cc",
    market_cap_rank := PFloat.num 50, current_price := PFloat.num 1,
    total_volume := PFloat.num 0, pc1hInCur := PFloat.num 0,
    pc24hInCur := PFloat.num 0, pc24hPct := PFloat.num 0, pc24hShort := PFloat.nan }

/-! Helper lemmas shared by the claim theorems. -/

theorem run_scan_body_eq (cfg : Config) (fetch : Except PyErr Markets)
    (bin : Except PyErr Exchange) (smtp : Except String Unit) :
    (run_scan cfg fetch bin smtp).body = scan_body cfg fetch bin smtp := by
  unfold run_scan
  generalize scan_body cfg fetch bin smtp = b
  rcases hf : b.fault with _ | e <;> simp [hf]

theorem run_scan_crash_eq (cfg : Config) (fetch : Except PyErr Markets)
    (bin : Except PyErr Exchange) (smtp : Except String Unit) :
    (run_scan cfg fetch bin smtp).crashEmailAttempted
      = (scan_body cfg fetch bin smtp).fault.isSome := by
  unfold run_scan
  generalize scan_body cfg fetch bin smtp = b
  rcases hf : b.fault with _ | e <;> simp [hf]

theorem scan_body_frame (cfg : Config) (f : Frame) (bin : Except PyErr Exchange)
    (smtp : Except String Unit) :
    scan_body cfg (Except.ok (Markets.ofFrame f)) bin smtp
      = if f.records.isEmpty then quietOut
        else if !f.cols.hasRank then quietOut
        else evalPhase cfg bin smtp f.cols (rankFilter cfg f.records) := rfl

theorem evalPhase_nil (cfg : Config) (bin : Except PyErr Exchange)
    (smtp : Except String Unit) (c : Cols) :
    evalPhase cfg bin smtp c [] = quietOut := rfl

theorem evalRow_ok (cfg : Config) (bin : Except PyErr Exchange) (c : Cols) (medv : ℚ)
    (r : RawRec) (out : RowOut) (h : evalRow cfg bin c medv r = Except.ok out) :
    ∃ s rank, r.symbol = PStr.str s ∧ pyIntOfFloat r.market_cap_rank = Except.ok rank ∧
      out = mkRow cfg bin c medv r s rank := by
  unfold evalRow at h
  cases hs : r.symbol with
  | nanv => simp [hs] at h
  | str s =>
    simp only [hs] at h
    cases hr : pyIntOfFloat r.market_cap_rank with
    | error e => simp [hr] at h
    | ok rank =>
      simp only [hr] at h
      exact ⟨s, rank, rfl, rfl, (Except.ok.inj h).symm⟩

theorem mkRow_signal (cfg : Config) (bin : Except PyErr Exchange) (c : Cols) (medv : ℚ)
    (r : RawRec) (s : String) (rank : Int) :
    (mkRow cfg bin c medv r s rank).signal
      = decide (2 ≤ condCount (cond1 cfg c r) (cond2 cfg c r) (cond3 cfg medv c r)) := by
  cases h1 : cond1 cfg c r <;> cases h2 : cond2 cfg c r <;>
    cases h3 : cond3 cfg medv c r <;> simp [mkRow, condCount, h1, h2, h3]

theorem mkRow_funding (cfg : Config) (bin : Except PyErr Exchange) (c : Cols) (medv : ℚ)
    (r : RawRec) (s : String) (rank : Int) :
    ((mkRow cfg bin c medv r s rank).attempts, (mkRow cfg bin c medv r s rank).funding)
      = fundingLoop (fun g => try_fetch_funding_rate cfg.CCXT_AVAILABLE bin g)
          (guessesOf cfg.CCXT_AVAILABLE ((mkRow cfg bin c medv r s rank).symbol)) := rfl

theorem mkRow_core_bin (cfg : Config) (bin bin2 : Except PyErr Exchange) (c : Cols)
    (medv : ℚ) (r : RawRec) (s : String) (rank : Int) :
    coreOf (mkRow cfg bin c medv r s rank) = coreOf (mkRow cfg bin2 c medv r s rank) := rfl

theorem fundingLoop_spec (lookup : String → Option Funding) (gs : List String) :
    fundingLoop lookup gs =
      (match gs.dropWhile (fun g => (lookup g).isNone) with
        | [] => (gs.takeWhile (fun g => (lookup g).isNone), none)
        | g :: _ => (gs.takeWhile (fun g => (lookup g).isNone) ++ [g], lookup g)) := by
  induction gs with
  | nil => rfl
  | cons s rest ih =>
    cases hl : lookup s with
    | some fr => simp [fundingLoop, hl, List.takeWhile_cons, List.dropWhile_cons]
    | none =>
      simp only [fundingLoop, hl, List.takeWhile_cons, List.dropWhile_cons, Option.isNone_none,
        if_true, ih]
      rcases hdw : List.dropWhile (fun g => (lookup g).isNone) rest with _ | ⟨g, tl⟩ <;>
        simp [hdw]

theorem sortQEq (l : List ℚ) :
    List.mergeSort l (fun a b => decide (a ≤ b)) = List.insertionSort (· ≤ ·) l := by
  simpa using List.mergeSort_eq_insertionSort (r := (· ≤ · : ℚ → ℚ → Prop)) l

theorem pandasMedian_eq_medianSpec (l : List ℚ) : pandasMedian l = medianSpec l := by
  simp [pandasMedian, medianSpec, sortQEq]

theorem rankFilter_append_out (cfg : Config) (l extra : List RawRec)
    (h : ∀ x ∈ extra, rankOk cfg x = false) :
    rankFilter cfg (l ++ extra) = rankFilter cfg l := by
  have hnil : extra.filter (rankOk cfg) = [] := by
    rw [List.filter_eq_nil_iff]
    intro a ha
    simp [h a ha]
  simp [rankFilter, List.filter_append, hnil]

theorem evalPhase_medianUsed (cfg : Config) (bin : Except PyErr Exchange)
    (smtp : Except String Unit) (c : Cols) (sel : List RawRec) (h : sel ≠ []) :
    (evalPhase cfg bin smtp c sel).medianUsed = some (median_vol c sel) := by
  have hne : sel.isEmpty = false := by
    cases sel with
    | nil => exact absurd rfl h
    | cons a l => rfl
  unfold evalPhase
  simp only [hne, Bool.false_eq_true, if_false]
  by_cases hc : (buildCandidates cfg bin c (median_vol c sel) sel).isEmpty
  · simp [hc]
  · simp only [hc, Bool.false_eq_true, if_false]
    cases hr : renderReport (buildCandidates cfg bin c (median_vol c sel) sel) <;> simp [hr]

theorem evalPhase_candidates (cfg : Config) (bin : Except PyErr Exchange)
    (smtp : Except String Unit) (c : Cols) (sel : List RawRec) :
    (evalPhase cfg bin smtp c sel).candidates
      = buildCandidates cfg bin c (median_vol c sel) sel := by
  cases sel with
  | nil => rfl
  | cons a l =>
    unfold evalPhase
    simp only [List.isEmpty_cons, Bool.false_eq_true, if_false]
    by_cases hc : (buildCandidates cfg bin c (median_vol c (a :: l)) (a :: l)).isEmpty
    · simp only [hc, if_true]
    · simp only [hc, Bool.false_eq_true, if_false]
      cases hr : renderReport (buildCandidates cfg bin c (median_vol c (a :: l)) (a :: l)) <;>
        simp [hr]

theorem evalPhase_no_candidates (cfg : Config) (bin : Except PyErr Exchange)
    (smtp : Except String Unit) (c : Cols) (sel : List RawRec)
    (h : buildCandidates cfg bin c (median_vol c sel) sel = []) :
    (evalPhase cfg bin smtp c sel).reportEmailAttempted = false
    ∧ (evalPhase cfg bin smtp c sel).fault = none
    ∧ (evalPhase cfg bin smtp c sel).candidates = []
    ∧ (evalPhase cfg bin smtp c sel).reportEmailOutcome = none := by
  cases sel with
  | nil => exact ⟨rfl, rfl, rfl, rfl⟩
  | cons a l =>
    unfold evalPhase
    simp [h]

/-! Claim theorems. -/

/-- C1: a fault-free filtered record becomes a candidate iff at least 2 of
the 3 conditions hold, the volume condition being forced false unless the
median volume is positive; the quorum count is order-independent and the
equivalence holds over all eight truth combinations. -/
theorem C1_quorum (cfg : Config) (bin : Except PyErr Exchange) (c : Cols) (medv : ℚ)
    (r : RawRec) (out : RowOut) (h : evalRow cfg bin c medv r = Except.ok out) :
    (out.signal = true ↔ 2 ≤ condCount (cond1 cfg c r) (cond2 cfg c r) (cond3 cfg medv c r))
    ∧ (¬ 0 < medv → cond3 cfg medv c r = false)
    ∧ (∀ a b d : Bool, condCount a b d = condCount b a d ∧ condCount a b d = condCount a d b)
    ∧ (∀ a b d : Bool, decide (2 ≤ condCount a b d) = (a && b || (a && d || b && d)))
    ∧ buildCandidates cfg bin c medv [r] = (if out.signal then [out] else []) := by
  obtain ⟨s, rank, hs, hr, hout⟩ := evalRow_ok cfg bin c medv r out h
  refine ⟨?_, ?_, by decide, by decide, ?_⟩
  · rw [hout, mkRow_signal]
    exact decide_eq_true_iff
  · intro hm
    simp [cond3, hm]
  · unfold buildCandidates
    rw [h]
    cases hsig : out.signal <;> simp [buildCandidates, hsig]

unseal Rat.mul Rat.add Rat.sub Rat.inv in
/-- C1 witness: the spec example record with rank 55, 1h change 2.5, 24h
change 1.0 and volume twice the median. -/
theorem C1_quorum_witness :
    (mkRow defaultCfg binNone colsAll 1 recC1 "ac" 55).signal = true
      ↔ 2 ≤ condCount (cond1 defaultCfg colsAll recC1) (cond2 defaultCfg colsAll recC1)
          (cond3 defaultCfg 1 colsAll recC1) :=
  (C1_quorum defaultCfg binNone colsAll 1 recC1
    (mkRow defaultCfg binNone colsAll 1 recC1 "ac" 55) (by decide)).1

/-- C2 counterexample: with MIN_1H_PCT set to -1 (which is ≤ 0) a record
whose per-record 1-hour value is missing (NaN) still fails the 1-hour
condition, because NaN survives the or-0 idiom of line 178 and compares
false; the missing value is therefore not treated as 0 for scoring. -/
theorem C2_cex :
    cfgC2.MIN_1H_PCT ≤ 0 ∧ pc1hCol colsAll recC2 = PFloat.nan
      ∧ cond1 cfgC2 colsAll recC2 = false := by decide

/-- C2 (amended): a filtered record whose effective 1-hour value is NaN is
scored with NaN and never satisfies the 1-hour condition, whatever
MIN_1H_PCT is; and when the 1h-in-currency column is absent the evaluator
does not use 0 either: it nulls the column when the 24h-in-currency column
is present, and otherwise substitutes the plain 24-hour percentage column
whenever that column exists. -/
theorem C2_missing_1h (cfg : Config) (c : Cols) (r : RawRec) :
    (pc1hCol c r = PFloat.nan → cond1 cfg c r = false)
    ∧ (c.hasPc1hInCur = false →
        pc1hCol c r = (if c.hasPc24hInCur then PFloat.nan
          else if c.hasPc24hPct then r.pc24hPct else PFloat.nan)) := by
  constructor
  · intro h
    simp [cond1, h, PFloat.orZero, PFloat.truthy, PFloat.geQ]
  · intro h
    cases h24 : c.hasPc24hInCur <;> simp [pc1hCol, h, h24]

/-- C2 witness: the concrete record of the counterexample never satisfies
the 1-hour condition, here under the default thresholds. -/
theorem C2_missing_1h_witness : cond1 defaultCfg colsAll recC2 = false :=
  (C2_missing_1h defaultCfg colsAll recC2).1 (by decide)

unseal Rat.mul Rat.add Rat.sub Rat.inv in
/-- C3 counterexample: an in-window record with no movement is not a
candidate, yet with ccxt available its funding lookup is attempted (and
here even succeeds on the first guess): the lookup is not reserved to
candidates. -/
theorem C3_cex :
    rankOk cfgC3 recC3 = true
    ∧ (evalRow cfgC3 binC3 colsAll 1 recC3).map (fun o => (o.signal, o.attempts, o.funding))
        = Except.ok (false, ["CC/USDT"], some { symbol := "CC/USDT" }) := by decide

/-- C3 (amended): the funding lookup runs for every fault-free filtered
record with a nonempty symbol whenever ccxt is available, for
non-candidates as well as candidates; it tries the ordered guesses
SYMBOL/USDT, SYMBOL/USD, SYMBOL/USDT:USDT and stops at the first success;
a missing capability or any lookup failure yields no funding data; and the
lookup never aborts or alters the candidate evaluation of any record. -/
theorem C3_funding (cfg : Config) (bin : Except PyErr Exchange) (c : Cols) (medv : ℚ)
    (r : RawRec) (out : RowOut) (h : evalRow cfg bin c medv r = Except.ok out) :
    (out.attempts, out.funding)
        = fundingLoop (fun g => try_fetch_funding_rate cfg.CCXT_AVAILABLE bin g)
            (guessesOf cfg.CCXT_AVAILABLE out.symbol)
    ∧ (cfg.CCXT_AVAILABLE = false → out.attempts = [] ∧ out.funding = none)
    ∧ (∀ (lookup : String → Option Funding) (gs : List String),
        fundingLoop lookup gs =
          (match gs.dropWhile (fun g => (lookup g).isNone) with
            | [] => (gs.takeWhile (fun g => (lookup g).isNone), none)
            | g :: _ => (gs.takeWhile (fun g => (lookup g).isNone) ++ [g], lookup g)))
    ∧ (∀ (mk : Except PyErr Exchange) (g : String), try_fetch_funding_rate false mk g = none)
    ∧ (∀ (e : PyErr) (g : String), try_fetch_funding_rate true (Except.error e) g = none)
    ∧ (∀ bin2 : Except PyErr Exchange,
        (evalRow cfg bin2 c medv r).map coreOf = Except.ok (coreOf out)) := by
  obtain ⟨s, rank, hs, hr, hout⟩ := evalRow_ok cfg bin c medv r out h
  refine ⟨?_, ?_, fundingLoop_spec, fun mk g => rfl, fun e g => rfl, ?_⟩
  · rw [hout]
    exact mkRow_funding cfg bin c medv r s rank
  · intro hav
    rw [hout]
    simp [mkRow, guessesOf, hav, fundingLoop]
  · intro bin2
    unfold evalRow
    simp only [hs, hr]
    rw [hout]
    rfl

unseal Rat.mul Rat.add Rat.sub Rat.inv in
/-- C3 witness: the attempts and funding result of the counterexample
record equal the funding loop over the ordered guesses. -/
theorem C3_funding_witness :
    ((mkRow cfgC3 binC3 colsAll 1 recC3 "cc" 50).attempts,
        (mkRow cfgC3 binC3 colsAll 1 recC3 "cc" 50).funding)
      = fundingLoop (fun g => try_fetch_funding_rate cfgC3.CCXT_AVAILABLE binC3 g)
          (guessesOf cfgC3.CCXT_AVAILABLE (mkRow cfgC3 binC3 colsAll 1 recC3 "cc" 50).symbol) :=
  (C3_funding cfgC3 binC3 colsAll 1 recC3
    (mkRow cfgC3 binC3 colsAll 1 recC3 "cc" 50) (by decide)).1

/-- C4 counterexample: when the provider returns an empty list, the claim
expects a crash notification attempt, but the run only logs an error and
returns: no candidate evaluation, and no notification attempt of any kind. -/
theorem C4_cex :
    (run_scan defaultCfg (Except.ok (Markets.ofFrame ⟨[], colsAll⟩)) binNone
        smtpOk).crashEmailAttempted = false
    ∧ (run_scan defaultCfg (Except.ok (Markets.ofFrame ⟨[], colsAll⟩)) binNone
        smtpOk).body.evaluated = false
    ∧ (run_scan defaultCfg (Except.ok (Markets.ofFrame ⟨[], colsAll⟩)) binNone
        smtpOk).body.reportEmailAttempted = false := by decide

/-- C4 (amended): a raised fetch fault makes the run abort before any
candidate evaluation and attempt a best-effort crash email carrying the
fault, completing without raising even when the notifier is unconfigured;
an empty or malformed (non-list) fetch result also prevents candidate
evaluation, but then the run ends with only an error log and no crash
notification is attempted. -/
theorem C4_fetch_fault (cfg : Config) (bin : Except PyErr Exchange)
    (smtp : Except String Unit) (e : PyErr) :
    run_scan cfg (Except.error e) bin smtp
        = { body := { quietOut with fault := some e }, crashEmailAttempted := true,
            crashEmailFault := some e, crashEmailOutcome := some (send_email cfg smtp) }
    ∧ run_scan cfg (Except.ok Markets.notList) bin smtp
        = { body := quietOut, crashEmailAttempted := false, crashEmailFault := none,
            crashEmailOutcome := none }
    ∧ (∀ c : Cols, run_scan cfg (Except.ok (Markets.ofFrame ⟨[], c⟩)) bin smtp
        = { body := quietOut, crashEmailAttempted := false, crashEmailFault := none,
            crashEmailOutcome := none })
    ∧ (cfg.SMTP_USER = "" →
        send_email cfg smtp = (false, "SMTP/recipient not configured")) := by
  refine ⟨rfl, rfl, fun c => rfl, fun h => ?_⟩
  simp [send_email, h]

/-- C4 witness: a network fault with the unconfigured default notifier. -/
theorem C4_fetch_fault_witness :
    run_scan defaultCfg (Except.error PyErr.netError) binNone smtpOk
        = { body := { quietOut with fault := some PyErr.netError },
            crashEmailAttempted := true, crashEmailFault := some PyErr.netError,
            crashEmailOutcome := some (send_email defaultCfg smtpOk) }
    ∧ send_email defaultCfg smtpOk = (false, "SMTP/recipient not configured") :=
  ⟨(C4_fetch_fault defaultCfg binNone smtpOk PyErr.netError).1,
   (C4_fetch_fault defaultCfg binNone smtpOk PyErr.netError).2.2.2 (by decide)⟩

/-- C5: the median used in a run that reaches evaluation equals the
statistical median of the present volume values of the rank-filtered
population, or 0 when every volume value there is absent; records outside
the rank window never contribute to it. -/
theorem C5_median (cfg : Config) (f : Frame) (bin : Except PyErr Exchange)
    (smtp : Except String Unit) (hR : f.cols.hasRank = true)
    (hsel : rankFilter cfg f.records ≠ []) :
    (run_scan cfg (Except.ok (Markets.ofFrame f)) bin smtp).body.medianUsed
        = some (median_vol f.cols (rankFilter cfg f.records))
    ∧ median_vol f.cols (rankFilter cfg f.records)
        = (if presentVols f.cols (rankFilter cfg f.records) = [] then 0
           else medianSpec (presentVols f.cols (rankFilter cfg f.records)))
    ∧ (∀ extra : List RawRec, (∀ x ∈ extra, rankOk cfg x = false) →
        rankFilter cfg (f.records ++ extra) = rankFilter cfg f.records) := by
  have hrec : f.records.isEmpty = false := by
    cases hh : f.records with
    | nil => exact absurd (by simp [rankFilter, hh]) hsel
    | cons a l => rfl
  refine ⟨?_, ?_, fun extra hx => rankFilter_append_out cfg f.records extra hx⟩
  · rw [run_scan_body_eq, scan_body_frame]
    simp only [hrec, hR, Bool.not_true, Bool.false_eq_true, if_false]
    exact evalPhase_medianUsed cfg bin smtp f.cols (rankFilter cfg f.records) hsel
  · unfold median_vol
    by_cases hp : presentVols f.cols (rankFilter cfg f.records) = [] <;>
      simp [hp, pandasMedian_eq_medianSpec]

/-- C5 witness: a one-record frame inside the rank window. -/
theorem C5_median_witness :
    (run_scan defaultCfg (Except.ok (Markets.ofFrame ⟨[recC5], colsAll⟩)) binNone
        smtpOk).body.medianUsed
      = some (median_vol colsAll (rankFilter defaultCfg [recC5])) :=
  (C5_median defaultCfg ⟨[recC5], colsAll⟩ binNone smtpOk (by decide) (by decide)).1

/-- C6: the rank filter keeps exactly the records whose rank lies in the
closed interval between RANK_MIN and RANK_MAX, bounds included, and is a
sublist of the input, so it introduces no records or duplicates that the
input does not contain. -/
theorem C6_rank_filter (cfg : Config) (recs : List RawRec) :
    (∀ r : RawRec, r ∈ rankFilter cfg recs ↔ r ∈ recs ∧ rankOk cfg r = true)
    ∧ (rankFilter cfg recs).Sublist recs
    ∧ (∀ r : RawRec, (rankFilter cfg recs).count r ≤ recs.count r)
    ∧ (∀ (r : RawRec) (q : ℚ), r.market_cap_rank = PFloat.num q →
        (rankOk cfg r = true ↔ (cfg.RANK_MIN : ℚ) ≤ q ∧ q ≤ (cfg.RANK_MAX : ℚ))) := by
  refine ⟨fun r => ?_, List.filter_sublist _, fun r => (List.filter_sublist _).count_le r,
    fun r q hq => ?_⟩
  · simp [rankFilter, List.mem_filter]
  · simp [rankOk, hq, PFloat.between]

/-- C6 witness: the bounds are inclusive at a concrete rank inside the
default window. -/
theorem C6_rank_filter_witness :
    rankOk defaultCfg recC5 = true
      ↔ (defaultCfg.RANK_MIN : ℚ) ≤ 50 ∧ (50 : ℚ) ≤ (defaultCfg.RANK_MAX : ℚ) :=
  (C6_rank_filter defaultCfg [recC5]).2.2.2 recC5 50 (by decide)

/-- C7: a run over a fetched frame with no records in the rank window, or
with no candidates, ends normally: no fault, zero candidates, and no
notification attempt of either kind. -/
theorem C7_quiet (cfg : Config) (f : Frame) (bin : Except PyErr Exchange)
    (smtp : Except String Unit)
    (h : rankFilter cfg f.records = []
      ∨ buildCandidates cfg bin f.cols (median_vol f.cols (rankFilter cfg f.records))
          (rankFilter cfg f.records) = []) :
    (run_scan cfg (Except.ok (Markets.ofFrame f)) bin smtp).body.candidates = []
    ∧ (run_scan cfg (Except.ok (Markets.ofFrame f)) bin smtp).body.reportEmailAttempted = false
    ∧ (run_scan cfg (Except.ok (Markets.ofFrame f)) bin smtp).body.reportEmailOutcome = none
    ∧ (run_scan cfg (Except.ok (Markets.ofFrame f)) bin smtp).crashEmailAttempted = false
    ∧ (run_scan cfg (Except.ok (Markets.ofFrame f)) bin smtp).body.fault = none := by
  have hcand : buildCandidates cfg bin f.cols (median_vol f.cols (rankFilter cfg f.records))
      (rankFilter cfg f.records) = [] := by
    rcases h with h | h
    · rw [h]
      rfl
    · exact h
  have hbody := run_scan_body_eq cfg (Except.ok (Markets.ofFrame f)) bin smtp
  have hcrash := run_scan_crash_eq cfg (Except.ok (Markets.ofFrame f)) bin smtp
  rw [scan_body_frame] at hbody hcrash
  by_cases h1 : f.records.isEmpty
  · simp only [h1, if_true] at hbody hcrash
    rw [hbody, hcrash]
    exact ⟨rfl, rfl, rfl, rfl, rfl⟩
  · simp only [h1, Bool.false_eq_true, if_false] at hbody hcrash
    by_cases h2 : f.cols.hasRank
    · simp only [h2, Bool.not_true, Bool.false_eq_true, if_false] at hbody hcrash
      obtain ⟨hrep, hfault, hcands, houtc⟩ :=
        evalPhase_no_candidates cfg bin smtp f.cols (rankFilter cfg f.records) hcand
      rw [hbody, hcrash]
      exact ⟨hcands, hrep, houtc, by rw [hfault]; rfl, hfault⟩
    · simp only [h2, Bool.not_false, if_true] at hbody hcrash
      rw [hbody, hcrash]
      exact ⟨rfl, rfl, rfl, rfl, rfl⟩

/-- C7 witness: a frame whose only record lies outside the rank window. -/
theorem C7_quiet_witness :
    (run_scan defaultCfg (Except.ok (Markets.ofFrame ⟨[recOut], colsAll⟩)) binNone
        smtpOk).body.candidates = []
    ∧ (run_scan defaultCfg (Except.ok (Markets.ofFrame ⟨[recOut], colsAll⟩)) binNone
        smtpOk).body.reportEmailAttempted = false
    ∧ (run_scan defaultCfg (Except.ok (Markets.ofFrame ⟨[recOut], colsAll⟩)) binNone
        smtpOk).body.reportEmailOutcome = none
    ∧ (run_scan defaultCfg (Except.ok (Markets.ofFrame ⟨[recOut], colsAll⟩)) binNone
        smtpOk).crashEmailAttempted = false
    ∧ (run_scan defaultCfg (Except.ok (Markets.ofFrame ⟨[recOut], colsAll⟩)) binNone
        smtpOk).body.fault = none :=
  C7_quiet defaultCfg ⟨[recOut], colsAll⟩ binNone smtpOk (Or.inl (by decide))

theorem sorted_renderRows (cands : List RowOut) : List.Sorted rankLe (renderRows cands) :=
  List.sorted_insertionSort rankLe cands

theorem evalPhase_rows_sorted (cfg : Config) (bin : Except PyErr Exchange)
    (smtp : Except String Unit) (c : Cols) (sel : List RawRec) :
    List.Sorted rankLe ((evalPhase cfg bin smtp c sel).reportRows) := by
  unfold evalPhase
  by_cases h1 : sel.isEmpty
  · simp [h1, quietOut]
  · simp only [h1, Bool.false_eq_true, if_false]
    by_cases h2 : (buildCandidates cfg bin c (median_vol c sel) sel).isEmpty
    · simp [h2]
    · simp only [h2, Bool.false_eq_true, if_false]
      rcases hr : renderReport (buildCandidates cfg bin c (median_vol c sel) sel) with e | rows
      · simp [hr]
      · simp only [hr]
        have hrows : rows = renderRows (buildCandidates cfg bin c (median_vol c sel) sel) := by
          unfold renderReport at hr
          split at hr
          · exact (Except.ok.inj hr).symm
          · cases hr
        rw [hrows]
        exact sorted_renderRows _

/-- C8: a fault while evaluating one record is caught and skipped and the
remaining records still evaluate: the candidate list equals the
independent evaluation of every non-faulting record, and removing a
faulting record from the sequence leaves the candidate list unchanged. -/
theorem C8_isolation (cfg : Config) (bin : Except PyErr Exchange) (c : Cols) (medv : ℚ) :
    (∀ rows : List RawRec, buildCandidates cfg bin c medv rows
        = rows.filterMap (fun r =>
            match evalRow cfg bin c medv r with
            | Except.ok out => if out.signal then some out else none
            | Except.error _ => none))
    ∧ (∀ (pre post : List RawRec) (r : RawRec) (e : PyErr),
        evalRow cfg bin c medv r = Except.error e →
        buildCandidates cfg bin c medv (pre ++ r :: post)
          = buildCandidates cfg bin c medv (pre ++ post)) := by
  have key : ∀ rows : List RawRec, buildCandidates cfg bin c medv rows
      = rows.filterMap (fun r =>
          match evalRow cfg bin c medv r with
          | Except.ok out => if out.signal then some out else none
          | Except.error _ => none) := by
    intro rows
    induction rows with
    | nil => rfl
    | cons a l ih =>
      cases he : evalRow cfg bin c medv a with
      | error e => simp [buildCandidates, he, List.filterMap_cons, ih]
      | ok out => cases hs : out.signal <;>
          simp [buildCandidates, he, hs, List.filterMap_cons, ih]
  refine ⟨key, fun pre post r e he => ?_⟩
  rw [key, key, List.filterMap_append, List.filterMap_append, List.filterMap_cons]
  simp [he]

/-- C8 witness: dropping a record whose symbol cell is NaN leaves the
candidate list unchanged. -/
theorem C8_isolation_witness :
    buildCandidates defaultCfg binNone colsAll 0 ([recC5] ++ recBad :: [recOut])
      = buildCandidates defaultCfg binNone colsAll 0 ([recC5] ++ [recOut]) :=
  (C8_isolation defaultCfg binNone colsAll 0).2 [recC5] [recOut] recBad
    PyErr.attrError (by decide)

/-- C9: the rendered report lists candidates in non-decreasing rank order:
the sorted rendering of any candidate list is sorted by rank, and so are
the report rows of every run trace. -/
theorem C9_sorted (cfg : Config) (fetch : Except PyErr Markets)
    (bin : Except PyErr Exchange) (smtp : Except String Unit) :
    List.Sorted rankLe ((run_scan cfg fetch bin smtp).body.reportRows)
    ∧ (∀ cands : List RowOut, List.Sorted rankLe (renderRows cands)) := by
  refine ⟨?_, sorted_renderRows⟩
  rw [run_scan_body_eq]
  rcases fetch with e | m
  · exact List.sorted_nil
  · rcases m with _ | f
    · exact List.sorted_nil
    · rw [scan_body_frame]
      by_cases h1 : f.records.isEmpty
      · simp only [h1, if_true]
        exact List.sorted_nil
      · simp only [h1, Bool.false_eq_true, if_false]
        by_cases h2 : f.cols.hasRank
        · simp only [h2, Bool.not_true, Bool.false_eq_true, if_false]
          exact evalPhase_rows_sorted cfg bin smtp f.cols (rankFilter cfg f.records)
        · simp only [h2, Bool.not_false, if_true]
          exact List.sorted_nil

/-- C10: a record whose own rank value is missing is silently dropped by
the rank filter, is never evaluated or reported as a candidate, and is not
an error: the whole run trace is the same as if the record were absent. -/
theorem C10_nan_rank (cfg : Config) (c : Cols) (l1 l2 : List RawRec) (r : RawRec)
    (bin : Except PyErr Exchange) (smtp : Except String Unit)
    (h : r.market_cap_rank = PFloat.nan) :
    (∀ recs : List RawRec, r ∉ rankFilter cfg recs)
    ∧ run_scan cfg (Except.ok (Markets.ofFrame ⟨l1 ++ r :: l2, c⟩)) bin smtp
        = run_scan cfg (Except.ok (Markets.ofFrame ⟨l1 ++ l2, c⟩)) bin smtp := by
  have hok : rankOk cfg r = false := by simp [rankOk, h, PFloat.between]
  constructor
  · intro recs hmem
    have hmm := (List.mem_filter.mp hmem).2
    rw [hok] at hmm
    cases hmm
  · have hfil : rankFilter cfg (l1 ++ r :: l2) = rankFilter cfg (l1 ++ l2) := by
      simp [rankFilter, List.filter_append, List.filter_cons, hok]
    have hsb : scan_body cfg (Except.ok (Markets.ofFrame ⟨l1 ++ r :: l2, c⟩)) bin smtp
        = scan_body cfg (Except.ok (Markets.ofFrame ⟨l1 ++ l2, c⟩)) bin smtp := by
      rw [scan_body_frame, scan_body_frame]
      cases hrest : l1 ++ l2 with
      | nil =>
        obtain ⟨h1, h2⟩ := List.append_eq_nil.mp hrest
        subst h1
        subst h2
        have hfr : rankFilter cfg [r] = [] := by
          simp [rankFilter, List.filter_cons, hok]
        simp only [List.nil_append, List.isEmpty_nil, if_true, List.isEmpty_cons,
          Bool.false_eq_true, if_false, hfr]
        by_cases hcR : c.hasRank
        · simp only [hcR, Bool.not_true, Bool.false_eq_true, if_false, evalPhase_nil]
        · simp only [hcR, Bool.not_false, if_true]
      | cons a t =>
        have hne1 : (l1 ++ r :: l2).isEmpty = false := by cases l1 <;> rfl
        simp only [hne1, hfil, hrest, List.isEmpty_cons, Bool.false_eq_true, if_false]
    unfold run_scan
    rw [hsb]

/-- C10 witness: inserting a record with a missing rank value into a
one-record frame leaves the run trace unchanged. -/
theorem C10_nan_rank_witness :
    run_scan defaultCfg (Except.ok (Markets.ofFrame ⟨[recC5] ++ recNan :: [], colsAll⟩))
        binNone smtpOk
      = run_scan defaultCfg (Except.ok (Markets.ofFrame ⟨[recC5] ++ [], colsAll⟩))
        binNone smtpOk :=
  (C10_nan_rank defaultCfg colsAll [recC5] [] recNan binNone smtpOk (by decide)).2

end Cryptoscan
